import Mathlib

/-!
Shallow embedding of `spreads.py` (NFL betting-spread scraper) and proofs
about its behaviour.  Python values that can be either strings or integers
are modelled by `PyVal`; Python exceptions raised by the modelled code are
modelled by `Except PyExc`.
-/

namespace Spreads

/-- A dynamically typed Python value as it occurs in the modelled code:
only integers and strings cross the boundaries we model. -/
inductive PyVal where
  | int (n : Int)
  | str (s : String)
deriving DecidableEq, BEq, Repr

/-- The Python exceptions the modelled code can raise. -/
inductive PyExc where
  | valueError
  | cantFindTheRightTable
  | assertionError
  | urlError
deriving DecidableEq, BEq, Repr

/-- Python `str(v)`. -/
def pyStr : PyVal → String
  | .int n => toString n
  | .str s => s

/-- Python `format(v, 'n')` (the `{year:n}` conversion in the URL templates):
renders an integer in decimal, raises `ValueError` on a string. -/
def formatN : PyVal → Except PyExc String
  | .int n => .ok (toString n)
  | .str _ => .error .valueError

/-- Head of `_GAME_URL_TEMPLATE`, before the interpolated fields. -/
def gameUrlBase : String := "http://www.teamrankings.com/nfl/matchup/"

/-- Model of `spreads.spread_url`: `week` is prefixed by the literal `week-` unless it
already is a string; the year is rendered with the `:n` conversion. -/
def spread_url (hometeam awayteam : String) (week year : PyVal) :
    Except PyExc String :=
  let weekStr := match week with
    | .str s => s
    | w => "week-" ++ pyStr w
  (formatN year).map fun y =>
    gameUrlBase ++ hometeam ++ "-" ++ awayteam ++ "-" ++ weekStr ++ "-" ++ y
      ++ "/spread-movement"

/-- Model of `spreads.over_under_url`: same construction with the over/under suffix. -/
def over_under_url (hometeam awayteam : String) (week year : PyVal) :
    Except PyExc String :=
  let weekStr := match week with
    | .str s => s
    | w => "week-" ++ pyStr w
  (formatN year).map fun y =>
    gameUrlBase ++ hometeam ++ "-" ++ awayteam ++ "-" ++ weekStr ++ "-" ++ y
      ++ "/over-under-movement"

/-- Model of `spreads.season_games_url`: `_SEASON_URL_TEMPLATE` with the `{year:n}`
conversion. -/
def season_games_url (year : PyVal) : Except PyExc String :=
  (formatN year).map fun y =>
    "http://www.pro-football-reference.com/years/" ++ y ++ "/games.htm"

/-! ## Market-quote cell coercion (`game`, lines 100–105)

Each cell of a spread / over-under table goes through
`.replace('--', 'nan').replace('(Pick)', 0).apply(float)`.
Pandas `Series.replace` with scalar arguments replaces cells that are
*exactly equal* to the pattern. -/

/-- A coerced market-quote cell: either the missing marker (`float('nan')`)
or a numeric value (we model Python floats on the exactly representable
decimal literals by rationals). -/
inductive CellVal where
  | nan
  | num (q : ℚ)
deriving DecidableEq, BEq, Repr

/-- Model of `Series.replace('--', 'nan')` on one cell. -/
def replaceDashes (v : PyVal) : PyVal :=
  if v = .str "--" then .str "nan" else v

/-- Model of `Series.replace('(Pick)', 0)` on one cell. -/
def replacePick (v : PyVal) : PyVal :=
  if v = .str "(Pick)" then .int 0 else v

/-- Digits of a numeral, most significant first, as a natural number. -/
def digitsVal (cs : List Char) : Nat :=
  cs.foldl (fun n c => 10 * n + (c.toNat - 48)) 0

/-- Is this a non-empty list of decimal digits? -/
def isDigitsL (cs : List Char) : Bool :=
  !cs.isEmpty && cs.all Char.isDigit

/-- Is this a non-empty string of decimal digits? -/
def isDigits (s : String) : Bool :=
  isDigitsL s.toList

/-- Python `str.strip()`: drop whitespace on both ends. -/
def trimChars (cs : List Char) : List Char :=
  ((cs.dropWhile Char.isWhitespace).reverse.dropWhile Char.isWhitespace).reverse

/-- Python `str.lower()` on a character list. -/
def lowerChars (cs : List Char) : List Char :=
  cs.map Char.toLower

/-- Split a character list at every character satisfying `p`, keeping empty
chunks (the behaviour of `str.split(sep)` with an explicit separator). -/
def splitWhen (p : Char → Bool) : List Char → List (List Char)
  | [] => [[]]
  | c :: rest =>
    let r := splitWhen p rest
    if p c then [] :: r
    else
      match r with
      | h :: t => (c :: h) :: t
      | [] => [[c]]

/-- Parse an unsigned decimal literal (`"7"`, `"7.5"`, `"7."`, `".5"`)
as a rational, the way Python's `float` reads it. -/
def parseUnsignedDecimal (cs : List Char) : Option ℚ :=
  match splitWhen (fun c => c = '.') cs with
  | [a] =>
    if isDigitsL a then some ((digitsVal a : Int) : ℚ) else none
  | [a, b] =>
    if (isDigitsL a || a.isEmpty) && (isDigitsL b || b.isEmpty)
        && !(a.isEmpty && b.isEmpty) then
      some (((digitsVal a : Int) : ℚ)
        + ((digitsVal b : Int) : ℚ) / ((10 : ℚ) ^ b.length))
    else none
  | _ => none

/-- Parse a signed decimal literal as a rational. -/
def parseSignedDecimal (cs : List Char) : Option ℚ :=
  match cs with
  | '-' :: rest => (parseUnsignedDecimal rest).map (fun q => -q)
  | '+' :: rest => parseUnsignedDecimal rest
  | _ => parseUnsignedDecimal cs

/-- Python `float(v)`: an int converts exactly; a string is stripped, the
literal `nan` gives the missing marker, a decimal literal parses, anything
else raises `ValueError`. -/
def pyFloat : PyVal → Except PyExc CellVal
  | .int n => .ok (.num (n : ℚ))
  | .str s =>
    let t := trimChars s.toList
    if lowerChars t = "nan".toList then .ok .nan
    else match parseSignedDecimal t with
      | some q => .ok (.num q)
      | none => .error .valueError

/-- The full per-cell pipeline of `game`, lines 100–105:
`replace('--', 'nan')`, then `replace('(Pick)', 0)`, then `float`. -/
def coerceCell (v : PyVal) : Except PyExc CellVal :=
  pyFloat (replacePick (replaceDashes v))

/-! ## Date reconstruction in `game` (lines 92–97)

The date column cell starts with a month/day token matched by
`(\d\d?/\d\d?)`; the first `replace` appends `/{year}` after the token, the
second rewrites the year to `year + 1` when the cell then matches
`^(01|02)/(\d\d?)/\d{4}`.  We represent a cell structurally by its month
token, day token and the remaining text. -/

/-- A date cell of the spread / over-under tables, split at its leading
`month/day` token (the part the regex `(\d\d?/\d\d?)` captures). -/
structure SlashDateCell where
  monthTok : String
  dayTok : String
  rest : String
deriving DecidableEq, Repr

/-- The intermediate cell after the first `replace`, with the appended year
rendered as a string. -/
structure SlashDateCellY where
  monthTok : String
  dayTok : String
  yearTok : String
  rest : String
deriving DecidableEq, Repr

/-- Is this a string matching `\d\d?` (one or two digits)? -/
def isDigit12 (s : String) : Bool :=
  (s.toList.length = 1 || s.toList.length = 2) && s.toList.all Char.isDigit

/-- First `replace` of `game`, line 95:
`(\d\d?/\d\d?)` becomes `\1/{year}`, i.e. the season year is appended after
the month/day token. -/
def gameDateStep1 (year : Int) (c : SlashDateCell) : SlashDateCellY :=
  ⟨c.monthTok, c.dayTok, toString year, c.rest⟩

/-- Second `replace` of `game`, lines 96–97: a cell matching
`^(01|02)/(\d\d?)/\d{4}` is rewritten with year `year + 1`; any other cell —
including one whose month token is a single digit — is left alone. -/
def gameDateStep2 (year : Int) (c : SlashDateCellY) : SlashDateCellY :=
  if (c.monthTok = "01" || c.monthTok = "02") && isDigit12 c.dayTok
      && c.yearTok.toList.length = 4 && c.yearTok.toList.all Char.isDigit then
    ⟨c.monthTok, c.dayTok, toString (year + 1), c.rest⟩
  else c

/-- The composed date reconstruction of `game` on one date cell. -/
def gameDateCell (year : Int) (c : SlashDateCell) : SlashDateCellY :=
  gameDateStep2 year (gameDateStep1 year c)

/-- The calendar month a month token denotes, when it does denote one. -/
def monthNum (s : String) : Option Nat :=
  if isDigits s && 1 ≤ digitsVal s.toList && digitsVal s.toList ≤ 12 then
    some (digitsVal s.toList)
  else none

/-! ## Date reconstruction in `season_games` (lines 194–198)

Schedule date cells read `"{MonthName} {day}"`.  The first `replace`
(`$` ⟶ `, {year}`) appends the season year; the second rewrites the year to
`year + 1` when the cell then matches `^(January|February) (\d+), \d+$`. -/

/-- A schedule date cell, split into its month name and day text. -/
structure NameDateCell where
  monthName : String
  dayTok : String
deriving DecidableEq, Repr

/-- The schedule date cell after the year has been appended. -/
structure NameDateCellY where
  monthName : String
  dayTok : String
  yearTok : String
deriving DecidableEq, Repr

/-- First `replace` of `season_games`, line 196: `$` ⟶ `, {year}`. -/
def seasonDateStep1 (year : Int) (c : NameDateCell) : NameDateCellY :=
  ⟨c.monthName, c.dayTok, toString year⟩

/-- Second `replace` of `season_games`, lines 197–198: a cell matching
`^(January|February) (\d+), \d+$` is rewritten with year `year + 1`. -/
def seasonDateStep2 (year : Int) (c : NameDateCellY) : NameDateCellY :=
  if (c.monthName = "January" || c.monthName = "February")
      && isDigits c.dayTok && isDigits c.yearTok then
    ⟨c.monthName, c.dayTok, toString (year + 1)⟩
  else c

/-- The composed date reconstruction of `season_games` on one date cell. -/
def seasonDateCell (year : Int) (c : NameDateCell) : NameDateCellY :=
  seasonDateStep2 year (seasonDateStep1 year c)

/-! ## Home/away redistribution in `season_games` (lines 204–214)

`WatL` is `Unnamed: 5 == '@'`; the home and away team columns are built by
the pandas bool-times-string arithmetic
`hometeam = ~WatL * Winner/tie + WatL * Loser/tie` (and symmetrically), and
team-name columns are then reduced by `s.split()[-1].lower()`. -/

/-- A raw schedule row, restricted to the columns the home/away
redistribution reads. -/
structure RawScheduleRow where
  winnerTie : String
  loserTie : String
  unnamed5 : String
deriving DecidableEq, Repr

/-- Pandas `bool * str`: `True * s = s`, `False * s = ''`. -/
def boolStrMul (b : Bool) (s : String) : String :=
  if b then s else ""

/-- Model of `data['WatL'] = data['Unnamed: 5'].apply(lambda x: x == '@')`. -/
def watl (r : RawScheduleRow) : Bool :=
  r.unnamed5 == "@"

/-- Model of `data['hometeam'] = ~data.WatL * data['Winner/tie'] + data.WatL *
data['Loser/tie']`, before canonicalisation. -/
def hometeamRaw (r : RawScheduleRow) : String :=
  boolStrMul (!watl r) r.winnerTie ++ boolStrMul (watl r) r.loserTie

/-- Model of `data['awayteam'] = data.WatL * data['Winner/tie'] + ~data.WatL *
data['Loser/tie']`, before canonicalisation. -/
def awayteamRaw (r : RawScheduleRow) : String :=
  boolStrMul (watl r) r.winnerTie ++ boolStrMul (!watl r) r.loserTie

/-- Python `s.split()[-1].lower()`: the last whitespace-delimited token,
lowercased; `none` when the cell has no token (where Python would raise). -/
def lastTokenLower (s : String) : Option String :=
  (((splitWhen Char.isWhitespace s.toList).filter
      (fun t => !t.isEmpty)).getLast?).map
    (fun t => (lowerChars t).asString)

/-- The final `hometeam` column of `season_games` for one row. -/
def hometeamCol (r : RawScheduleRow) : Option String :=
  lastTokenLower (hometeamRaw r)

/-- The final `awayteam` column of `season_games` for one row. -/
def awayteamCol (r : RawScheduleRow) : Option String :=
  lastTokenLower (awayteamRaw r)

/-- The final `winner` column of `season_games` for one row
(`data['winner'] = data['Winner/tie']`, then canonicalised). -/
def winnerCol (r : RawScheduleRow) : Option String :=
  lastTokenLower r.winnerTie

/-! ## Home/away reconciliation: `game_unknown_homeaway` (lines 219–237)

`game` itself does network fetches and HTML parsing; for the reconciliation
logic we model it over an abstract fetch oracle
`fetch : hometeam → awayteam → Except PyExc payload`.  On success `game`
stamps its `hometeam` and `awayteam` arguments into the table (lines
123–124), which we record as fields of `GameRec`. -/

/-- The outcome of `game`: its argument teams stamped as the
`hometeam` / `awayteam` columns, an abstract payload standing for the rest
of the table, and the `home_away_discrepency` column (absent until
`game_unknown_homeaway` adds it). -/
structure GameRec where
  hometeam : String
  awayteam : String
  payload : Nat
  discrepancy : Option Bool
deriving DecidableEq, Repr

/-- Model of `game` over a fetch oracle: on success the argument teams become the
`hometeam` and `awayteam` columns. -/
def gameF (fetch : String → String → Except PyExc Nat)
    (hometeam awayteam : String) : Except PyExc GameRec :=
  (fetch hometeam awayteam).map fun p => ⟨hometeam, awayteam, p, none⟩

/-- Is this exception caught by
`except (CantFindTheRightTable, ValueError)`? -/
def caughtBySwap : PyExc → Bool
  | .cantFindTheRightTable => true
  | .valueError => true
  | _ => false

/-- Model of `spreads.game_unknown_homeaway`: try `game(team_a, team_b)`; on
`CantFindTheRightTable` or `ValueError` retry with the teams swapped, then
swap the `hometeam` / `awayteam` columns of the result back and set the
`home_away_discrepency` column to `True`; on first success set it to
`False`. -/
def game_unknown_homeaway (fetch : String → String → Except PyExc Nat)
    (team_a team_b : String) : Except PyExc GameRec :=
  match gameF fetch team_a team_b with
  | .ok g => .ok { g with discrepancy := some false }
  | .error e =>
    if caughtBySwap e then
      match gameF fetch team_b team_a with
      | .ok g =>
        let awayteam := g.hometeam
        let hometeam := g.awayteam
        .ok { g with hometeam := hometeam, awayteam := awayteam,
                     discrepancy := some true }
      | .error e2 => .error e2
    else .error e

/-! ## The concurrent season fetcher: `season` (lines 240–279)

One task per scheduled game is submitted; results are consumed in
completion order.  The per-task outcome is modelled by an oracle
`run : Args → Except PyExc (Option (List MergeRow))`: an `Except.error`
models `future.result()` raising, `Option` models the `table is None`
check of lines 269–271 (which `game_unknown_homeaway` in fact never
produces).  Completion order does not affect the sets collected, so we
fold in submission order. -/

/-- A schedule row as `season` reads it: the merge key columns. -/
structure SchedRow where
  hometeam : String
  awayteam : String
  week : PyVal
deriving DecidableEq, BEq, Repr

/-- The argument tuple `(hometeam, awayteam, week, year)` passed to
`game_unknown_homeaway` and recorded for failure reporting. -/
structure GameArgs where
  hometeam : String
  awayteam : String
  week : PyVal
  year : Int
deriving DecidableEq, BEq, Repr

/-- A row of one `game_unknown_homeaway` result table, restricted to the
merge key plus an abstract payload for the remaining columns. -/
structure MergeRow where
  hometeam : String
  awayteam : String
  week : PyVal
  payload : Nat
deriving DecidableEq, BEq, Repr

/-- Model of `games[games.week == week]` when a week filter is given. -/
def filterWeek (week : Option PyVal) (schedule : List SchedRow) :
    List SchedRow :=
  match week with
  | none => schedule
  | some w => schedule.filter (fun g => g.week == w)

/-- The result-collection loop of `season`, lines 262–274: per task, an
exception from `future.result()` is caught and logged — and nothing is
appended to `failures`; a `None` table appends the args to `failures`; a
real table is appended to `tables`. Returns `(tables, failures)`. -/
def seasonCollect (year : Int)
    (run : GameArgs → Except PyExc (Option (List MergeRow)))
    (games : List SchedRow) : List (List MergeRow) × List GameArgs :=
  games.foldl
    (fun acc g =>
      let args : GameArgs := ⟨g.hometeam, g.awayteam, g.week, year⟩
      match run args with
      | .error _ => acc
      | .ok none => (acc.1, acc.2 ++ [args])
      | .ok (some t) => (acc.1 ++ [t], acc.2))
    ([], [])

/-- Model of `games.merge(pd.concat(tables), on=('hometeam', 'awayteam', 'week'))`:
the default inner join on the key columns. -/
def seasonMerge (games : List SchedRow) (rows : List MergeRow) :
    List (SchedRow × MergeRow) :=
  games.flatMap fun g =>
    (rows.filter fun m =>
      m.hometeam == g.hometeam && m.awayteam == g.awayteam
        && m.week == g.week).map fun m => (g, m)

/-- Model of `len(tables.groupby(['hometeam', 'awayteam', 'week']))`: the number of
distinct merge keys in the joined table. -/
def distinctGames (t : List (SchedRow × MergeRow)) : Nat :=
  ((t.map fun r => (r.1.hometeam, r.1.awayteam, r.1.week)).eraseDups).length

/-- Model of `spreads.season` over the per-task oracle: filter the schedule, run one
task per game, collect `(tables, failures)`, concatenate and join the
tables (`pd.concat` raises `ValueError` on an empty list), then assert that
the number of distinct joined games equals the number requested. -/
def season (year : Int) (week : Option PyVal) (schedule : List SchedRow)
    (run : GameArgs → Except PyExc (Option (List MergeRow))) :
    Except PyExc (List (SchedRow × MergeRow) × List GameArgs) :=
  let games := filterWeek week schedule
  let expected_n := games.length
  let collected := seasonCollect year run games
  if collected.1.isEmpty then .error .valueError
  else
    let tables := seasonMerge games collected.1.flatten
    if distinctGames tables = expected_n then .ok (tables, collected.2)
    else .error .assertionError

/-! ## `hometeamify` (lines 307–338)

The table rows carry the columns `hometeamify` reads; winner/loser
statistics are ints, spread columns are floats (possibly NaN).  Pandas
`bool * int` multiplies through `True = 1`, `False = 0`; float arithmetic
propagates NaN (in particular `0 * nan = nan`, `nan + x = nan`). -/

/-- A row of the `season`-generated table, restricted to the columns
`hometeamify` touches. -/
structure SeasonRow where
  hometeam : String
  awayteam : String
  winner : String
  favored : String
  ptsW : Int
  ptsL : Int
  ydsW : Int
  ydsL : Int
  toW : Int
  toL : Int
  pinnacle_spread : CellVal
  betonline_spread : CellVal
  bookmaker_spread : CellVal
deriving DecidableEq, Repr

/-- A row of the `hometeamify` output: winner/loser statistics replaced by
home/away statistics, `winner` and `favored` columns deleted. -/
structure HomeRow where
  hometeam : String
  awayteam : String
  points_home : Int
  points_away : Int
  yards_home : Int
  yards_away : Int
  turn_overs_home : Int
  turn_overs_away : Int
  pinnacle_spread : CellVal
  betonline_spread : CellVal
  bookmaker_spread : CellVal
deriving DecidableEq, Repr

/-- Pandas `bool * int`. -/
def boolIntMul (b : Bool) (n : Int) : Int :=
  if b then n else 0

/-- Float multiplication by an integer scalar, with NaN propagation. -/
def cellScale (k : Int) : CellVal → CellVal
  | .nan => .nan
  | .num q => .num ((k : ℚ) * q)

/-- Float addition with NaN propagation. -/
def cellAdd : CellVal → CellVal → CellVal
  | .nan, _ => .nan
  | _, .nan => .nan
  | .num a, .num b => .num (a + b)

/-- Column `hw`: `t.hometeam == t.winner` for one row. -/
def hwRow (r : SeasonRow) : Bool := r.hometeam == r.winner

/-- Column `aw`: `t.awayteam == t.winner` for one row. -/
def awRow (r : SeasonRow) : Bool := r.awayteam == r.winner

/-- Column `to_swap`: `t.favored == t.awayteam` for one row. -/
def toSwapRow (r : SeasonRow) : Bool := r.favored == r.awayteam

/-- Column `to_keep`: `t.favored == t.hometeam` for one row. -/
def toKeepRow (r : SeasonRow) : Bool := r.favored == r.hometeam

/-- Model of `-1 * to_swap * t[col] + to_keep * t[col]` for one spread cell. -/
def respreadCell (r : SeasonRow) (v : CellVal) : CellVal :=
  cellAdd (cellScale (-1 * boolIntMul (toSwapRow r) 1) v)
          (cellScale (boolIntMul (toKeepRow r) 1) v)

/-- The per-row column rewrite of `hometeamify` (statistics to home/away,
spreads re-signed, `winner` and `favored` dropped). -/
def hometeamifyRow (r : SeasonRow) : HomeRow where
  hometeam := r.hometeam
  awayteam := r.awayteam
  points_home := boolIntMul (hwRow r) r.ptsW + boolIntMul (awRow r) r.ptsL
  points_away := boolIntMul (awRow r) r.ptsW + boolIntMul (hwRow r) r.ptsL
  yards_home := boolIntMul (hwRow r) r.ydsW + boolIntMul (awRow r) r.ydsL
  yards_away := boolIntMul (awRow r) r.ydsW + boolIntMul (hwRow r) r.ydsL
  turn_overs_home := boolIntMul (hwRow r) r.toW + boolIntMul (awRow r) r.toL
  turn_overs_away := boolIntMul (awRow r) r.toW + boolIntMul (hwRow r) r.toL
  pinnacle_spread := respreadCell r r.pinnacle_spread
  betonline_spread := respreadCell r r.betonline_spread
  bookmaker_spread := respreadCell r r.bookmaker_spread

/-- Model of `spreads.hometeamify` on the copied table: `assert (hw == ~aw).all()`,
the winner/loser column rewrite, then `assert (to_keep == ~to_swap).all()`
and the spread re-signing; an `assert` failure raises `AssertionError`. -/
def hometeamifyTable (t : List SeasonRow) :
    Except PyExc (List HomeRow) :=
  if t.all (fun r => hwRow r == !awRow r) then
    if t.all (fun r => toKeepRow r == !toSwapRow r) then
      .ok (t.map hometeamifyRow)
    else .error .assertionError
  else .error .assertionError

/-- A table object on the heap: either still in the `season` shape or
already rewritten to the home/away shape. -/
inductive TableObj where
  | seasonShaped (rows : List SeasonRow)
  | homeShaped (rows : List HomeRow)
deriving DecidableEq, Repr

/-- A heap of table objects, for the aliasing behaviour of `hometeamify`:
`t = t.copy()` allocates a fresh object and every later mutation targets
that copy, never the caller's table. -/
abbrev TableHeap : Type := List TableObj

/-- Model of `hometeamify` acting on a heap of tables: read the argument table at
`r`, allocate its copy as a fresh object, run the column rewrites on the
copy, and return the mutated heap with a reference to the copy. -/
def hometeamifyHeap (h : TableHeap) (r : Nat) :
    Except PyExc (TableHeap × Nat) :=
  match h[r]? with
  | some (.seasonShaped t) =>
    match hometeamifyTable t with
    | .ok t2 => .ok (h ++ [.homeShaped t2], h.length)
    | .error e => .error e
  | _ => .error .valueError

/-- Equality of modelled Python results is decidable. -/
instance {ε α : Type} [DecidableEq ε] [DecidableEq α] :
    DecidableEq (Except ε α) := fun x y =>
  match x, y with
  | .ok a, .ok b =>
    if h : a = b then .isTrue (by rw [h])
    else .isFalse (by intro hh; cases hh; exact h rfl)
  | .error a, .error b =>
    if h : a = b then .isTrue (by rw [h])
    else .isFalse (by intro hh; cases hh; exact h rfl)
  | .ok _, .error _ => .isFalse (by intro hh; cases hh)
  | .error _, .ok _ => .isFalse (by intro hh; cases hh)

/-! ## Theorems -/

/-- Claim C9: for every valid `(home, away, week, year)` input, `spread_url`
and `over_under_url` produce a URL whose week segment is the literal tag
string when the week is a named playoff round, and the literal `week-`
prefix followed by the number when the week is an integer. -/
theorem url_week_segment (h a w : String) (n y : Int) :
    spread_url h a (.int n) (.int y)
      = .ok (gameUrlBase ++ h ++ "-" ++ a ++ "-" ++ ("week-" ++ toString n)
          ++ "-" ++ toString y ++ "/spread-movement")
  ∧ spread_url h a (.str w) (.int y)
      = .ok (gameUrlBase ++ h ++ "-" ++ a ++ "-" ++ w
          ++ "-" ++ toString y ++ "/spread-movement")
  ∧ over_under_url h a (.int n) (.int y)
      = .ok (gameUrlBase ++ h ++ "-" ++ a ++ "-" ++ ("week-" ++ toString n)
          ++ "-" ++ toString y ++ "/over-under-movement")
  ∧ over_under_url h a (.str w) (.int y)
      = .ok (gameUrlBase ++ h ++ "-" ++ a ++ "-" ++ w
          ++ "-" ++ toString y ++ "/over-under-movement") :=
  ⟨rfl, rfl, rfl, rfl⟩

/-- Claim C8, counterexample: `season_games_url` does have an error
condition — on the malformed (string) input `"2012"` it raises
`ValueError` instead of returning a URL string, exactly as the repository's
own test `test_season_games_url` asserts. -/
theorem url_builder_raises_counterexample :
    season_games_url (.str "2012") = .error .valueError
  ∧ ∀ u : String, season_games_url (.str "2012") ≠ .ok u :=
  ⟨rfl, fun _ h => nomatch h⟩

/-- Claim C8, amended: the URL builders raise nothing for any team slugs
and any week with an integer year — malformed slugs or weeks only make a
URL that fails downstream — but a non-integer (string) year raises
`ValueError` through the `{year:n}` conversion, in all three builders. -/
theorem url_builder_error_conditions :
    (∀ (h a : String) (w : PyVal) (y : Int),
      ∃ u, spread_url h a w (.int y) = .ok u)
  ∧ (∀ (h a : String) (w : PyVal) (y : Int),
      ∃ u, over_under_url h a w (.int y) = .ok u)
  ∧ (∀ y : Int, ∃ u, season_games_url (.int y) = .ok u)
  ∧ (∀ (h a : String) (w : PyVal) (s : String),
      spread_url h a w (.str s) = .error .valueError)
  ∧ (∀ (h a : String) (w : PyVal) (s : String),
      over_under_url h a w (.str s) = .error .valueError)
  ∧ (∀ s : String, season_games_url (.str s) = .error .valueError) := by
  refine ⟨fun h a w y => ?_, fun h a w y => ?_, fun y => ⟨_, rfl⟩,
    fun h a w s => ?_, fun h a w s => ?_, fun s => rfl⟩ <;>
    cases w <;> first | exact ⟨_, rfl⟩ | rfl

/-- Claim C4: in the market-quote cell pipeline of `game`, the sentinel
`"--"` becomes the missing-value marker NaN — never a parsed zero — the
sentinel `"(Pick)"` becomes exactly `0.0`, and every other cell is handed
to `float` unchanged. -/
theorem game_quote_cell_sentinels :
    coerceCell (.str "--") = .ok .nan
  ∧ CellVal.nan ≠ CellVal.num 0
  ∧ coerceCell (.str "(Pick)") = .ok (.num 0)
  ∧ ∀ s : String, s ≠ "--" → s ≠ "(Pick)" →
      coerceCell (.str s) = pyFloat (.str s) := by
  refine ⟨by decide, by decide, by decide, fun s h1 h2 => ?_⟩
  simp [coerceCell, replaceDashes, replacePick, h1, h2]

/-- Witness for C4: the theorem applied to the ordinary cell `"-7"`. -/
theorem game_quote_cell_sentinels_witness :
    coerceCell (.str "-7") = pyFloat (.str "-7")
  ∧ coerceCell (.str "-7") = .ok (.num (-7)) :=
  ⟨game_quote_cell_sentinels.2.2.2 "-7" (by decide) (by decide), by decide⟩

/-- Claim C5, counterexample: in `game`'s date reconstruction, a row dated
in January with season year 2013 — month token `"1"`, as the capture
`(\d\d?/\d\d?)` admits — is stamped with calendar year 2013, not 2014: the
rollover `replace` only matches the zero-padded tokens `01` and `02`. -/
theorem game_date_rollover_counterexample :
    monthNum "1" = some 1
  ∧ gameDateCell 2013 ⟨"1", "15", " 8:00 PM"⟩
      = ⟨"1", "15", "2013", " 8:00 PM"⟩
  ∧ (toString ((2013 : Int) + 1) : String) ≠ "2013" := by
  refine ⟨by decide, by decide, by decide⟩

/-- Claim C5, amended: in `game`'s date reconstruction a row is stamped
with calendar year `Y + 1` exactly when its month token is the zero-padded
`"01"` or `"02"` (January or February tokens written with a single digit
keep year `Y`); any September–December month token keeps year `Y`; in
`season_games`'s date reconstruction a row whose month name is `January`
or `February` is stamped `Y + 1` and any other month name keeps `Y`. -/
theorem date_rollover_amended :
    (∀ (year : Int) (c : SlashDateCell),
      isDigit12 c.dayTok = true →
      (toString year).toList.length = 4 →
      (toString year).toList.all Char.isDigit = true →
      (gameDateCell year c).yearTok
        = if c.monthTok = "01" ∨ c.monthTok = "02" then toString (year + 1)
          else toString year)
  ∧ (∀ (year : Int) (c : SlashDateCell) (m : Nat),
      monthNum c.monthTok = some m → 9 ≤ m →
      (gameDateCell year c).yearTok = toString year)
  ∧ (∀ (year : Int) (c : NameDateCell),
      isDigits c.dayTok = true →
      isDigits (toString year) = true →
      (seasonDateCell year c).yearTok
        = if c.monthName = "January" ∨ c.monthName = "February" then
            toString (year + 1)
          else toString year) := by
  refine ⟨fun year c hd hy4 hyd => ?_, fun year c m hm h9 => ?_,
    fun year c hd hy => ?_⟩
  · by_cases hm : c.monthTok = "01" ∨ c.monthTok = "02"
    · rw [if_pos hm]
      have hy4s : (toString year).length = 4 := by simpa using hy4
      have hyds : ∀ x ∈ (toString year).data, x.isDigit = true := by
        simpa [List.all_eq_true] using hyd
      rcases hm with h | h <;>
        simp [gameDateCell, gameDateStep1, gameDateStep2, h, hd, hy4s, hyds] <;>
        rw [if_pos hyds]
    · rw [if_neg hm]
      push_neg at hm
      simp [gameDateCell, gameDateStep1, gameDateStep2, hm.1, hm.2]
  · have h1 : c.monthTok ≠ "01" := by
      intro h; rw [h] at hm
      simp [monthNum, isDigits, isDigitsL, digitsVal] at hm; omega
    have h2 : c.monthTok ≠ "02" := by
      intro h; rw [h] at hm
      simp [monthNum, isDigits, isDigitsL, digitsVal] at hm; omega
    simp [gameDateCell, gameDateStep1, gameDateStep2, h1, h2]
  · by_cases hm : c.monthName = "January" ∨ c.monthName = "February"
    · rw [if_pos hm]
      rcases hm with h | h <;>
        simp [seasonDateCell, seasonDateStep1, seasonDateStep2, h, hd, hy]
    · rw [if_neg hm]
      push_neg at hm
      simp [seasonDateCell, seasonDateStep1, seasonDateStep2, hm.1, hm.2]

/-- Witness for C5 (amended): the theorem applied to a zero-padded playoff
date, a September date, and a schedule date, all in season 2013. -/
theorem date_rollover_amended_witness :
    (gameDateCell 2013 ⟨"01", "15", " 8:00 PM"⟩).yearTok = toString ((2013 : Int) + 1)
  ∧ (gameDateCell 2013 ⟨"09", "5", " 9:05 PM"⟩).yearTok = toString (2013 : Int)
  ∧ (seasonDateCell 2013 ⟨"January", "15"⟩).yearTok = toString ((2013 : Int) + 1) := by
  refine ⟨?_, ?_, ?_⟩
  · have h := date_rollover_amended.1 2013 ⟨"01", "15", " 8:00 PM"⟩
      (by decide) (by decide) (by decide)
    simpa using h
  · exact date_rollover_amended.2.1 2013 ⟨"09", "5", " 9:05 PM"⟩ 9
      (by decide) (by decide)
  · have h := date_rollover_amended.2.2 2013 ⟨"January", "15"⟩
      (by decide) (by decide)
    simpa using h

/-- Claim C7: in `season_games`, the `WatL` boolean is exactly "the marker
cell is the literal `@`", and it redistributes the winner/loser name
columns into home/away name columns: `hometeam` is the (canonicalised)
winner when the marker is absent and the loser when it is present, and
`awayteam` is the other team; consequently the marker is present exactly
when the listed winner is the away team. -/
theorem season_games_marker_redistribution (r : RawScheduleRow)
    (w l : String) (hw : winnerCol r = some w)
    (hl : lastTokenLower r.loserTie = some l) (hne : w ≠ l) :
    (watl r = true ↔ r.unnamed5 = "@")
  ∧ (r.unnamed5 = "@" → hometeamCol r = some l ∧ awayteamCol r = some w)
  ∧ (r.unnamed5 ≠ "@" → hometeamCol r = some w ∧ awayteamCol r = some l)
  ∧ (r.unnamed5 = "@" ↔ awayteamCol r = winnerCol r)
  ∧ (r.unnamed5 ≠ "@" ↔ hometeamCol r = winnerCol r) := by
  have hwini : winnerCol r = lastTokenLower r.winnerTie := rfl
  by_cases hat : r.unnamed5 = "@"
  · have hwa : watl r = true := by simp [watl, hat]
    have hh : hometeamCol r = some l := by
      simp only [hometeamCol, hometeamRaw, hwa]
      simpa [boolStrMul] using hl
    have ha : awayteamCol r = some w := by
      simp only [awayteamCol, awayteamRaw, hwa]
      simpa [boolStrMul] using hwini ▸ hw
    refine ⟨by simp [hwa, hat], fun _ => ⟨hh, ha⟩, fun h => absurd hat h,
      ⟨fun _ => by rw [ha, hwini, ← hwini, hw], fun _ => hat⟩,
      ⟨fun h => absurd hat h, fun h => ?_⟩⟩
    rw [hh, hw] at h
    exact absurd (Option.some.inj h).symm hne
  · have hwa : watl r = false := by
      simp only [watl, beq_eq_false_iff_ne, ne_eq]; exact hat
    have hh : hometeamCol r = some w := by
      simp only [hometeamCol, hometeamRaw, hwa]
      simpa [boolStrMul] using hwini ▸ hw
    have ha : awayteamCol r = some l := by
      simp only [awayteamCol, awayteamRaw, hwa]
      simpa [boolStrMul] using hl
    refine ⟨by simp [hwa, hat], fun h => absurd h hat, fun _ => ⟨hh, ha⟩,
      ⟨fun h => absurd h hat, fun h => ?_⟩,
      ⟨fun _ => by rw [hh, hwini, ← hwini, hw], fun _ => hat⟩⟩
    rw [ha, hw] at h
    exact absurd (Option.some.inj h).symm hne

/-- Witness for C7: the theorem applied to the 2013 week-1 row in which
the winning Broncos are listed with the `@` marker absent. -/
theorem season_games_marker_redistribution_witness :
    hometeamCol ⟨"Denver Broncos", "Baltimore Ravens", ""⟩ = some "broncos"
  ∧ awayteamCol ⟨"Denver Broncos", "Baltimore Ravens", ""⟩ = some "ravens" :=
  (season_games_marker_redistribution
    ⟨"Denver Broncos", "Baltimore Ravens", ""⟩ "broncos" "ravens"
    (by decide) (by decide) (by decide)).2.2.1 (by decide)

/-- A fetch oracle under which `ravens` is the confirmed home team: only
the fetch with `ravens` listed first succeeds (as in the repository's own
`test_game_unknown_homeaway`). -/
def fetchRavensHome : String → String → Except PyExc Nat := fun h a =>
  if h == "ravens" && a == "broncos" then .ok 7
  else .error .cantFindTheRightTable

/-- Claim C1, counterexample: for the reversed pair
`("broncos", "ravens")` — where the swapped call confirms `ravens` as the
home team — `game_unknown_homeaway` returns a record with
`hometeam = "broncos"` and `home_away_discrepency = True`: the home/away
fields are swapped back to the *nominal* caller orientation, not left at
the confirmed true orientation, so `hometeam` is not the confirmed home
team. -/
theorem game_unknown_homeaway_reversed_counterexample :
    gameF fetchRavensHome "broncos" "ravens"
      = .error .cantFindTheRightTable
  ∧ gameF fetchRavensHome "ravens" "broncos"
      = .ok ⟨"ravens", "broncos", 7, none⟩
  ∧ game_unknown_homeaway fetchRavensHome "broncos" "ravens"
      = .ok ⟨"broncos", "ravens", 7, some true⟩
  ∧ ("broncos" : String) ≠ "ravens" := by
  refine ⟨by decide, by decide, by decide, by decide⟩

/-- Claim C1, amended: for a reversed pair — `game(team_a, team_b)` fails
with a caught error and `game(team_b, team_a)` succeeds — the returned
record carries the nominal caller orientation, `hometeam = team_a` and
`awayteam = team_b` (the fields of the successful swapped record are
swapped back), with `home_away_discrepency` true in every row; for a
non-reversed pair the result is the record of `game(team_a, team_b)` with
`home_away_discrepency` false. -/
theorem game_unknown_homeaway_orientation
    (fetch : String → String → Except PyExc Nat) (team_a team_b : String) :
    (∀ p, fetch team_a team_b = .ok p →
      game_unknown_homeaway fetch team_a team_b
        = .ok ⟨team_a, team_b, p, some false⟩)
  ∧ (∀ e p, fetch team_a team_b = .error e → caughtBySwap e = true →
      fetch team_b team_a = .ok p →
      game_unknown_homeaway fetch team_a team_b
        = .ok ⟨team_a, team_b, p, some true⟩)
  ∧ (∀ e, fetch team_a team_b = .error e → caughtBySwap e = false →
      game_unknown_homeaway fetch team_a team_b = .error e) := by
  refine ⟨fun p hp => ?_, fun e p he hc hp => ?_, fun e he hc => ?_⟩
  · simp [game_unknown_homeaway, gameF, hp, Except.map]
  · simp [game_unknown_homeaway, gameF, he, hc, hp, Except.map]
  · simp [game_unknown_homeaway, gameF, he, hc, Except.map]

/-- Witness for C1 (amended): the theorem applied to the oracle
`fetchRavensHome` for both the reversed and the non-reversed pair. -/
theorem game_unknown_homeaway_orientation_witness :
    game_unknown_homeaway fetchRavensHome "broncos" "ravens"
      = .ok ⟨"broncos", "ravens", 7, some true⟩
  ∧ game_unknown_homeaway fetchRavensHome "ravens" "broncos"
      = .ok ⟨"ravens", "broncos", 7, some false⟩ :=
  ⟨(game_unknown_homeaway_orientation fetchRavensHome "broncos" "ravens").2.1
      .cantFindTheRightTable 7 (by decide) (by decide) (by decide),
   (game_unknown_homeaway_orientation fetchRavensHome "ravens" "broncos").1
      7 (by decide)⟩

/-- The schedule slice and per-task oracle of a batch in which the single
requested game's task raises `CantFindTheRightTable` (both orientations of
the odds page are missing). -/
def schedOneGame : List SchedRow := [⟨"ravens", "broncos", .int 1⟩]

/-- A per-task oracle whose task raises. -/
def runRaises : GameArgs → Except PyExc (Option (List MergeRow)) :=
  fun _ => .error .cantFindTheRightTable

/-- Claim C2 is violated by the code (code bug): when the task for the one
requested game raises, the `except` branch of `season` only logs — nothing
is appended to `failures` — so the collected failures list is empty, and
`season` then aborts (here: `pd.concat` on no tables raises `ValueError`;
with surviving siblings the `assert` on the game count raises instead of
returning), so the dropped game is never recorded in a returned failures
list, contradicting `season`'s own docstring. -/
theorem season_exception_not_in_failures :
    (seasonCollect 2013 runRaises schedOneGame).2 = []
  ∧ (seasonCollect 2013 runRaises schedOneGame).1 = []
  ∧ season 2013 none schedOneGame runRaises = .error .valueError := by
  refine ⟨by decide, by decide, by decide⟩

/-- Claim C6: whenever `season` returns a table, the number of distinct
`(hometeam, awayteam, week)` keys in it equals the number of scheduled
games requested (the week-filtered schedule length); and when the joined
table's distinct-game count mismatches the requested count, `season` is a
hard failure (`AssertionError`), not a silently returned table. -/
theorem season_integrity_check (year : Int) (week : Option PyVal)
    (schedule : List SchedRow)
    (run : GameArgs → Except PyExc (Option (List MergeRow))) :
    (∀ t fs, season year week schedule run = .ok (t, fs) →
      distinctGames t = (filterWeek week schedule).length)
  ∧ ((seasonCollect year run (filterWeek week schedule)).1.isEmpty = false →
      distinctGames
          (seasonMerge (filterWeek week schedule)
            (seasonCollect year run (filterWeek week schedule)).1.flatten)
        ≠ (filterWeek week schedule).length →
      season year week schedule run = .error .assertionError) := by
  constructor
  · intro t fs hok
    unfold season at hok
    by_cases he :
        (seasonCollect year run (filterWeek week schedule)).1.isEmpty
    · simp [he] at hok
    · simp only [he, Bool.false_eq_true, if_false] at hok
      by_cases hn :
          distinctGames
              (seasonMerge (filterWeek week schedule)
                (seasonCollect year run (filterWeek week schedule)).1.flatten)
            = (filterWeek week schedule).length
      · simp only [hn, if_true] at hok
        cases hok
        exact hn
      · simp [hn] at hok
  · intro he hn
    unfold season
    simp [he, hn]

/-- Witness for C6: the theorem applied to a one-game schedule whose task
succeeds with a matching table, giving exactly one distinct game. -/
theorem season_integrity_check_witness :
    distinctGames
        (seasonMerge schedOneGame
          [⟨"ravens", "broncos", .int 1, 7⟩])
      = schedOneGame.length :=
  (season_integrity_check 2013 none schedOneGame
      (fun a => .ok (some [⟨a.hometeam, a.awayteam, a.week, 7⟩]))).1
    (seasonMerge schedOneGame [⟨"ravens", "broncos", .int 1, 7⟩])
    [] (by decide)

/-- Claim C3: whenever `hometeamify` accepts a table, every row's favored
team equals its home team or its away team; and a table containing a row
whose favored team is neither is rejected with `AssertionError` (the
`assert (to_keep == ~to_swap).all()` data-integrity check) instead of
being accepted into the output. -/
theorem hometeamify_favored_invariant :
    (∀ (t : List SeasonRow) (t2 : List HomeRow),
      hometeamifyTable t = .ok t2 →
      ∀ r ∈ t, r.favored = r.hometeam ∨ r.favored = r.awayteam)
  ∧ (∀ (t : List SeasonRow) (r : SeasonRow), r ∈ t →
      r.favored ≠ r.hometeam → r.favored ≠ r.awayteam →
      hometeamifyTable t = .error .assertionError) := by
  constructor
  · intro t t2 hok r hr
    unfold hometeamifyTable at hok
    split at hok
    · split at hok
      · rename_i h1 h2
        have h := List.all_eq_true.mp h2 r hr
        rw [beq_iff_eq] at h
        by_cases hfa : r.favored = r.awayteam
        · exact Or.inr hfa
        · left
          have hts : toSwapRow r = false := by
            simp [toSwapRow]; intro hc; exact absurd hc hfa
          rw [hts] at h
          simp only [Bool.not_false] at h
          simpa [toKeepRow] using h
      · exact Except.noConfusion hok
    · exact Except.noConfusion hok
  · intro t r hr hfh hfa
    have hp : (toKeepRow r == !toSwapRow r) = false := by
      simp [toKeepRow, toSwapRow, hfh, hfa]
    unfold hometeamifyTable
    split
    · have h2 : t.all (fun r => toKeepRow r == !toSwapRow r) = false := by
        rw [List.all_eq_false]
        exact ⟨r, hr, by simp [hp]⟩
      simp [h2]
    · rfl

/-- A `season`-table row on which `hometeamify`'s integrity checks pass:
the Broncos at home beat and were favored over the Ravens; the spread
quote cells are missing in this row. -/
def demoSeasonRow : SeasonRow :=
  ⟨"broncos", "ravens", "broncos", "broncos", 49, 27, 510, 393, 2, 2,
    .nan, .nan, .nan⟩

/-- Witness for C3: the theorem applied to the one-row table of
`demoSeasonRow`, which `hometeamify` accepts. -/
theorem hometeamify_favored_invariant_witness :
    demoSeasonRow.favored = demoSeasonRow.hometeam
      ∨ demoSeasonRow.favored = demoSeasonRow.awayteam :=
  hometeamify_favored_invariant.1 [demoSeasonRow]
    [hometeamifyRow demoSeasonRow] (by decide) demoSeasonRow (by decide)

/-- Claim C10: `hometeamify` returns a new table and leaves its argument
table unmodified — `t = t.copy()` makes every later column mutation target
the fresh copy — so after a successful call every pre-existing heap object,
in particular the argument table, is unchanged, and the returned reference
is the freshly allocated copy. -/
theorem hometeamify_leaves_argument_unmodified
    (h : TableHeap) (r : Nat) (h2 : TableHeap) (r2 : Nat)
    (hok : hometeamifyHeap h r = .ok (h2, r2)) :
    (∀ i, i < h.length → h2[i]? = h[i]?)
  ∧ r2 = h.length ∧ h2[r]? = h[r]? := by
  unfold hometeamifyHeap at hok
  split at hok
  · rename_i t hg
    split at hok
    · rename_i t2 ht
      simp only [Except.ok.injEq, Prod.mk.injEq] at hok
      obtain ⟨hh2, hr2⟩ := hok
      subst hh2
      have hlt : r < h.length := by
        rcases List.getElem?_eq_some.mp hg with ⟨hl, _⟩
        exact hl
      exact ⟨fun i hi => List.getElem?_append_left hi, hr2.symm,
        List.getElem?_append_left hlt⟩
    · exact Except.noConfusion hok
  · exact Except.noConfusion hok

/-- The one-table heap holding `demoSeasonRow`'s table before the call. -/
def demoHeapIn : TableHeap := [.seasonShaped [demoSeasonRow]]

/-- The heap after `hometeamify`: the argument object plus the fresh copy. -/
def demoHeapOut : TableHeap :=
  [.seasonShaped [demoSeasonRow], .homeShaped [hometeamifyRow demoSeasonRow]]

/-- Witness for C10: the theorem applied to the call on `demoHeapIn`; the
argument table object is unchanged by the call. -/
theorem hometeamify_leaves_argument_unmodified_witness :
    demoHeapOut[0]? = demoHeapIn[0]?
  ∧ demoHeapIn[0]? = some (.seasonShaped [demoSeasonRow]) :=
  ⟨(hometeamify_leaves_argument_unmodified demoHeapIn 0 demoHeapOut 1
      (by decide)).2.2, by decide⟩

end Spreads
